import Mathlib

/-!
Verification of the SQLite test-database lifecycle backend
(django/db/backends/sqlite3/creation.py) and the test-runner driver
(tests/runtests.py) of the django-imt fork.

The Python code is shallowly embedded: connection settings dictionaries
become association lists from string keys to Python values, filesystem and
console side effects become explicit event traces, subprocess results and
user input become oracle parameters, and process exit becomes an explicit
outcome value.  The runner script targets Python 2, so the integer
division in bisect_tests is floor division.
-/

namespace DjangoImt

/-- A Python value stored in a settings dictionary: either None or a
string.  Only these two kinds occur in the code under study. -/
inductive PyVal where
  | vnone : PyVal
  | vstr : String → PyVal
deriving DecidableEq, Repr

/-- A Python dict with string keys, as an association list; lookups see
the first binding of a key. -/
abbrev SettingsDict := List (String × PyVal)

/-- Reads key k, returning the string stored there, for contexts where the
code assumes a string is present; theorems that use it carry the presence
assumption as a hypothesis. -/
def getStrD (d : SettingsDict) (k : String) : String :=
  match d.lookup k with
  | some (PyVal.vstr s) => s
  | _ => ""

/-- Python dict item assignment on a copy: replace the first binding of
the key, or append a new binding. -/
def dictSet : SettingsDict → String → PyVal → SettingsDict
  | [], k, v => [(k, v)]
  | (k₀, v₀) :: rest, k, v =>
    if k₀ = k then (k, v) :: rest else (k₀, v₀) :: dictSet rest k v

/-- A filesystem or console effect performed by the creation backend. -/
inductive Event where
  | fsRemove : String → Event
  | fsCopy : String → String → Event
  | stdout : String → Event
  | stderr : String → Event
deriving DecidableEq, Repr

/-- The filesystem operations of a trace, console output dropped. -/
def fsEvents (tr : List Event) : List Event :=
  tr.filter fun e =>
    match e with
    | Event.fsRemove _ => true
    | Event.fsCopy _ _ => true
    | _ => false

/-- How a lifecycle call ends: a normal return or sys.exit with a code. -/
inductive Outcome where
  | returned : Outcome
  | exited : Nat → Outcome
deriving DecidableEq, Repr

/-- creation.py lines 44-48, _get_test_db_name: the configured TEST_NAME
when it is truthy and not the in-memory marker, else the in-memory
marker.  Modelled from the spec: the connection machinery that builds
settings dictionaries is outside the two given files; per Django
convention it always fills TEST_NAME, defaulting to None, so an absent
key is read here as None (falsy). -/
def get_test_db_name (d : SettingsDict) : String :=
  match d.lookup "TEST_NAME" with
  | some (PyVal.vstr s) => if s ≠ "" ∧ s ≠ ":memory:" then s else ":memory:"
  | _ => ":memory:"

/-- creation.py lines 103-106, _destroy_test_db: remove the database file
unless the name is falsy or the in-memory marker. -/
def destroy_test_db (test_database_name : String) : List Event :=
  if test_database_name ≠ "" ∧ test_database_name ≠ ":memory:" then
    [Event.fsRemove test_database_name]
  else []

/-- creation.py lines 111-124, test_db_signature: the NAME, and also the
alias when the test database is in-memory.  Python tuples of the two
possible lengths are rendered as lists. -/
def test_db_signature (d : SettingsDict) (aliasName : String) : List String :=
  let sig := [getStrD d "NAME"]
  if get_test_db_name d = ":memory:" then sig ++ [aliasName] else sig

/-- creation.py lines 11-34, the data_types dict, in source order. -/
def data_types : List (String × String) :=
  [ ("AutoField", "integer"),
    ("BooleanField", "bool"),
    ("CharField", "varchar(%(max_length)s)"),
    ("CommaSeparatedIntegerField", "varchar(%(max_length)s)"),
    ("DateField", "date"),
    ("DateTimeField", "datetime"),
    ("DecimalField", "decimal"),
    ("FileField", "varchar(%(max_length)s)"),
    ("FilePathField", "varchar(%(max_length)s)"),
    ("FloatField", "real"),
    ("IntegerField", "integer"),
    ("BigIntegerField", "bigint"),
    ("IPAddressField", "char(15)"),
    ("GenericIPAddressField", "char(39)"),
    ("NullBooleanField", "bool"),
    ("OneToOneField", "integer"),
    ("PositiveIntegerField", "integer unsigned"),
    ("PositiveSmallIntegerField", "smallint unsigned"),
    ("SlugField", "varchar(%(max_length)s)"),
    ("SmallIntegerField", "smallint"),
    ("TextField", "text"),
    ("TimeField", "time") ]

/-- C7: each listed field name is sent to its fixed SQLite column type by
the data_types mapping. -/
theorem data_types_mapping :
    data_types.lookup "AutoField" = some "integer" ∧
    data_types.lookup "IntegerField" = some "integer" ∧
    data_types.lookup "OneToOneField" = some "integer" ∧
    data_types.lookup "CharField" = some "varchar(%(max_length)s)" ∧
    data_types.lookup "SlugField" = some "varchar(%(max_length)s)" ∧
    data_types.lookup "BooleanField" = some "bool" ∧
    data_types.lookup "NullBooleanField" = some "bool" ∧
    data_types.lookup "TextField" = some "text" := by
  decide

/-- C6: _destroy_test_db removes exactly the named file when the name is
non-empty and not the in-memory marker, and performs no filesystem
operation otherwise. -/
theorem destroy_test_db_frame (name : String) :
    (name ≠ "" ∧ name ≠ ":memory:" →
      destroy_test_db name = [Event.fsRemove name]) ∧
    (name = "" ∨ name = ":memory:" → destroy_test_db name = []) := by
  constructor
  · intro h
    simp [destroy_test_db, h]
  · intro h
    rcases h with h | h <;> simp [destroy_test_db, h]

/-- C6 witness at concrete names. -/
theorem destroy_test_db_frame_witness :
    (("test.db" : String) ≠ "" ∧ ("test.db" : String) ≠ ":memory:" →
      destroy_test_db "test.db" = [Event.fsRemove "test.db"]) ∧
    ((":memory:" : String) = "" ∨ (":memory:" : String) = ":memory:" →
      destroy_test_db ":memory:" = []) :=
  ⟨(destroy_test_db_frame "test.db").1, (destroy_test_db_frame ":memory:").2⟩

/-- C10: _get_test_db_name returns the configured TEST_NAME exactly when
it is a non-empty string other than the in-memory marker, returns the
in-memory marker in every other case, and never returns the empty
string. -/
theorem get_test_db_name_spec (d : SettingsDict) :
    (∀ s, d.lookup "TEST_NAME" = some (PyVal.vstr s) → s ≠ "" →
      s ≠ ":memory:" → get_test_db_name d = s) ∧
    ((d.lookup "TEST_NAME" = none ∨
      d.lookup "TEST_NAME" = some PyVal.vnone ∨
      d.lookup "TEST_NAME" = some (PyVal.vstr "") ∨
      d.lookup "TEST_NAME" = some (PyVal.vstr ":memory:")) →
      get_test_db_name d = ":memory:") ∧
    get_test_db_name d ≠ "" := by
  refine ⟨?_, ?_, ?_⟩
  · intro s hs h1 h2
    simp [get_test_db_name, hs, h1, h2]
  · intro h
    rcases h with h | h | h | h <;> simp [get_test_db_name, h]
  · unfold get_test_db_name
    rcases h : d.lookup "TEST_NAME" with _ | v
    · simp
    · rcases v with _ | s
      · simp
      · by_cases h1 : s ≠ "" ∧ s ≠ ":memory:" <;> simp [h1]

/-- C10 witness at a concrete settings dictionary. -/
theorem get_test_db_name_spec_witness :
    get_test_db_name [("TEST_NAME", PyVal.vstr "custom.db")] = "custom.db" ∧
    get_test_db_name [("TEST_NAME", PyVal.vnone)] = ":memory:" ∧
    get_test_db_name [("NAME", PyVal.vstr "x.db")] ≠ "" :=
  ⟨(get_test_db_name_spec [("TEST_NAME", PyVal.vstr "custom.db")]).1
      "custom.db" (by decide) (by decide) (by decide),
   (get_test_db_name_spec [("TEST_NAME", PyVal.vnone)]).2.1
      (Or.inr (Or.inl (by decide))),
   (get_test_db_name_spec [("NAME", PyVal.vstr "x.db")]).2.2⟩

/-- Index of the last occurrence of a character in a list. -/
def lastIndexOf (cs : List Char) (c : Char) : Option Nat :=
  ((cs.enum.filter fun p => p.2 = c).map Prod.fst).getLast?

/-- Python os.path.splitext: split at the last dot of the final path
component, unless that component has no non-dot character before the
dot (leading dots do not start an extension). -/
def splitext (p : String) : String × String :=
  let cs := p.toList
  let sepN : Nat :=
    match lastIndexOf cs '/' with
    | some i => i + 1
    | none => 0
  match lastIndexOf cs '.' with
  | some dotIdx =>
    if sepN ≤ dotIdx ∧
        (List.range (dotIdx - sepN)).any
          (fun j => cs.getD (sepN + j) '.' != '.') = true then
      (String.mk (cs.take dotIdx), String.mk (cs.drop dotIdx))
    else (p, "")
  | none => (p, "")

/-- creation.py line 78: the clone database name, built by formatting
root, clone number and extension (the format string places a literal dot
before the extension returned by splitext). -/
def cloneName (source : String) (number : Nat) : String :=
  (splitext source).1 ++ "_" ++ toString number ++ "." ++ (splitext source).2

/-- creation.py lines 70-79, get_test_db_clone_settings: the settings
dict itself for an in-memory source, else a copy whose NAME is the clone
name.  The in-memory test, is_in_memory_db, lives on the connection
outside the given files and is taken as a parameter. -/
def get_test_db_clone_settings (isInMemory : String → Bool) (d : SettingsDict)
    (number : Nat) : SettingsDict :=
  let source := getStrD d "NAME"
  if isInMemory source then d
  else dictSet d "NAME" (PyVal.vstr (cloneName source number))

theorem lookup_cons_of_ne {v : PyVal} {rest : SettingsDict} {k k' : String}
    (h : k' ≠ k) : List.lookup k' ((k, v) :: rest) = List.lookup k' rest := by
  simp only [List.lookup]
  rw [show (k' == k) = false from beq_eq_false_iff_ne.mpr h]

theorem lookup_cons_self {v : PyVal} {rest : SettingsDict} {k : String} :
    List.lookup k ((k, v) :: rest) = some v := by
  simp only [List.lookup]
  rw [show (k == k) = true from beq_self_eq_true k]

theorem dictSet_lookup_ne (d : SettingsDict) (k k' : String) (v : PyVal)
    (h : k' ≠ k) : (dictSet d k v).lookup k' = d.lookup k' := by
  induction d with
  | nil =>
    show List.lookup k' [(k, v)] = List.lookup k' []
    rw [lookup_cons_of_ne h]
  | cons p rest ih =>
    obtain ⟨k₀, v₀⟩ := p
    simp only [dictSet]
    by_cases hk : k₀ = k
    · rw [if_pos hk]
      subst hk
      rw [lookup_cons_of_ne h, lookup_cons_of_ne h]
    · rw [if_neg hk]
      by_cases hk' : k' = k₀
      · subst hk'
        rw [lookup_cons_self, lookup_cons_self]
      · rw [lookup_cons_of_ne hk', lookup_cons_of_ne hk', ih]

theorem dictSet_lookup_eq (d : SettingsDict) (k : String) (v : PyVal) :
    (dictSet d k v).lookup k = some v := by
  induction d with
  | nil =>
    show List.lookup k [(k, v)] = some v
    exact lookup_cons_self
  | cons p rest ih =>
    obtain ⟨k₀, v₀⟩ := p
    simp only [dictSet]
    by_cases hk : k₀ = k
    · rw [if_pos hk]
      exact lookup_cons_self
    · rw [if_neg hk]
      have hk' : k ≠ k₀ := fun hh => hk hh.symm
      rw [lookup_cons_of_ne hk', ih]

/-- C8: for a file-based source database, every key other than NAME of
the clone settings dict agrees with the original dict, and NAME becomes
the formatted clone name; the original dict is a pure value, untouched
by construction. -/
theorem clone_settings_preserves_other_keys
    (isInMemory : String → Bool) (d : SettingsDict) (number : Nat)
    (name : String)
    (hname : d.lookup "NAME" = some (PyVal.vstr name))
    (hmem : isInMemory name = false) :
    (∀ k, k ≠ "NAME" →
      (get_test_db_clone_settings isInMemory d number).lookup k
        = d.lookup k) ∧
    (get_test_db_clone_settings isInMemory d number).lookup "NAME"
      = some (PyVal.vstr (cloneName name number)) := by
  have hsrc : getStrD d "NAME" = name := by simp [getStrD, hname]
  constructor
  · intro k hk
    simp [get_test_db_clone_settings, hsrc, hmem,
      dictSet_lookup_ne d "NAME" k _ hk]
  · simp [get_test_db_clone_settings, hsrc, hmem, dictSet_lookup_eq]

/-- C8 witness: a concrete two-key settings dict. -/
theorem clone_settings_preserves_other_keys_witness :
    (get_test_db_clone_settings (fun _ => false)
        [("NAME", PyVal.vstr "db.sqlite3"), ("ENGINE", PyVal.vstr "sqlite3")]
        1).lookup "ENGINE" = some (PyVal.vstr "sqlite3") ∧
    (get_test_db_clone_settings (fun _ => false)
        [("NAME", PyVal.vstr "db.sqlite3"), ("ENGINE", PyVal.vstr "sqlite3")]
        1).lookup "NAME"
      = some (PyVal.vstr (cloneName "db.sqlite3" 1)) := by
  have h := clone_settings_preserves_other_keys (fun _ => false)
    [("NAME", PyVal.vstr "db.sqlite3"), ("ENGINE", PyVal.vstr "sqlite3")]
    1 "db.sqlite3" (by decide) rfl
  exact ⟨h.1 "ENGINE" (by decide), h.2⟩

/-- C9 counterexample: with the same NAME and different aliases, one
in-memory and one file-based test database already yield distinct
signatures, so "distinct exactly when the test databases are in-memory"
fails as a biconditional at this input. -/
theorem test_db_signature_exactly_when_false :
    ¬ ((test_db_signature
          [("NAME", PyVal.vstr "db"), ("TEST_NAME", PyVal.vstr ":memory:")]
          "default"
        ≠ test_db_signature
          [("NAME", PyVal.vstr "db"), ("TEST_NAME", PyVal.vstr "other.db")]
          "clone")
      ↔ (get_test_db_name
           [("NAME", PyVal.vstr "db"), ("TEST_NAME", PyVal.vstr ":memory:")]
           = ":memory:" ∧
         get_test_db_name
           [("NAME", PyVal.vstr "db"), ("TEST_NAME", PyVal.vstr "other.db")]
           = ":memory:")) := by
  decide

/-- C9 (amended): the signature is the one-element list of NAME for a
file-based test database and NAME with the alias for an in-memory one;
two connections with the same NAME and different aliases get distinct
signatures exactly when at least one test database is in-memory. -/
theorem test_db_signature_distinct_iff
    (d₁ d₂ : SettingsDict) (a₁ a₂ : String)
    (hsame : getStrD d₁ "NAME" = getStrD d₂ "NAME")
    (halias : a₁ ≠ a₂) :
    (get_test_db_name d₁ ≠ ":memory:" →
      test_db_signature d₁ a₁ = [getStrD d₁ "NAME"]) ∧
    (get_test_db_name d₁ = ":memory:" →
      test_db_signature d₁ a₁ = [getStrD d₁ "NAME", a₁]) ∧
    (test_db_signature d₁ a₁ ≠ test_db_signature d₂ a₂ ↔
      (get_test_db_name d₁ = ":memory:" ∨ get_test_db_name d₂ = ":memory:")) := by
  refine ⟨?_, ?_, ?_⟩
  · intro h
    simp [test_db_signature, h]
  · intro h
    simp [test_db_signature, h]
  · by_cases h₁ : get_test_db_name d₁ = ":memory:" <;>
      by_cases h₂ : get_test_db_name d₂ = ":memory:" <;>
      simp [test_db_signature, h₁, h₂, hsame, halias]

/-- C9 witness: two in-memory connections sharing NAME with different
aliases. -/
theorem test_db_signature_distinct_iff_witness :
    test_db_signature [("NAME", PyVal.vstr "db")] "default"
      ≠ test_db_signature [("NAME", PyVal.vstr "db")] "clone1" := by
  have h := test_db_signature_distinct_iff
    [("NAME", PyVal.vstr "db")] [("NAME", PyVal.vstr "db")]
    "default" "clone1" rfl (by decide)
  exact h.2.2.mpr (Or.inl (by decide))

/-- Environment of one _clone_test_db run: whether the target file
exists, and whether the two filesystem calls succeed or raise. -/
structure CloneEnv where
  targetExists : Bool
  removeOk : Bool
  copyOk : Bool
deriving DecidableEq, Repr

/-- creation.py lines 97-101: the copy of the source database that ends
_clone_test_db, with its error handler. -/
def cloneCopyStep (copyOk : Bool) (source target : String) :
    List Event × Outcome :=
  if copyOk then ([Event.fsCopy source target], Outcome.returned)
  else ([Event.fsCopy source target,
         Event.stderr "Got an error cloning the test database"],
        Outcome.exited 2)

/-- creation.py lines 81-101, _clone_test_db: nothing for an in-memory
source; else return early under keepdb when the target exists, otherwise
remove an existing target and copy the source over.  Error messages keep
the fixed text of the source, the formatted exception dropped. -/
def clone_test_db (isInMemory : String → Bool) (env : CloneEnv)
    (d : SettingsDict) (number : Nat) (verbosity : Nat) (keepdb : Bool) :
    List Event × Outcome :=
  let source := getStrD d "NAME"
  let target := getStrD (get_test_db_clone_settings isInMemory d number) "NAME"
  if isInMemory source then ([], Outcome.returned)
  else if env.targetExists then
    if keepdb then ([], Outcome.returned)
    else
      let pre :=
        if 1 ≤ verbosity then
          [Event.stdout ("Destroying old test database " ++ target)]
        else []
      if env.removeOk then
        let step := cloneCopyStep env.copyOk source target
        (pre ++ [Event.fsRemove target] ++ step.1, step.2)
      else
        (pre ++ [Event.fsRemove target,
           Event.stderr "Got an error deleting the old test database"],
         Outcome.exited 2)
  else
    cloneCopyStep env.copyOk source target

/-- Environment of one _create_test_db run: whether the old database
file exists, what the interactive prompt reads, and whether os.remove
succeeds. -/
structure CreateEnv where
  fileExists : Bool
  userInput : String
  removeOk : Bool
deriving DecidableEq, Repr

/-- creation.py lines 50-68, _create_test_db: for a file-based test
database, destroy a pre-existing file (asking first unless autoclobber),
exiting with 2 on a deletion error and 1 on refusal; always returns the
test database name on the normal path. -/
def create_test_db (env : CreateEnv) (d : SettingsDict) (aliasName : String)
    (verbosity : Nat) (autoclobber : Bool) : List Event × Except Nat String :=
  let name := get_test_db_name d
  if name = ":memory:" then ([], Except.ok name)
  else
    let pre :=
      if 1 ≤ verbosity then
        [Event.stdout ("Destroying old test database " ++ aliasName)]
      else []
    if env.fileExists then
      if autoclobber || env.userInput == "yes" then
        if env.removeOk then (pre ++ [Event.fsRemove name], Except.ok name)
        else (pre ++ [Event.fsRemove name,
               Event.stderr "Got an error deleting the old test database"],
              Except.error 2)
      else (pre ++ [Event.stdout "Tests cancelled."], Except.error 1)
    else (pre, Except.ok name)

/-- C2: _clone_test_db touches no file for an in-memory source, returns
untouched when the target exists under keepdb, and otherwise removes an
existing target and copies the source to the name that
get_test_db_clone_settings produced. -/
theorem clone_test_db_frame (isInMemory : String → Bool) (env : CloneEnv)
    (d : SettingsDict) (number verbosity : Nat) (keepdb : Bool) :
    (isInMemory (getStrD d "NAME") = true →
      (clone_test_db isInMemory env d number verbosity keepdb).1 = []) ∧
    (isInMemory (getStrD d "NAME") = false → env.targetExists = true →
      keepdb = true →
      (clone_test_db isInMemory env d number verbosity keepdb).1 = []) ∧
    (isInMemory (getStrD d "NAME") = false → env.targetExists = true →
      keepdb = false → env.removeOk = true → env.copyOk = true →
      fsEvents (clone_test_db isInMemory env d number verbosity keepdb).1 =
        [Event.fsRemove
           (getStrD (get_test_db_clone_settings isInMemory d number) "NAME"),
         Event.fsCopy (getStrD d "NAME")
           (getStrD (get_test_db_clone_settings isInMemory d number) "NAME")]) ∧
    (isInMemory (getStrD d "NAME") = false → env.targetExists = false →
      env.copyOk = true →
      fsEvents (clone_test_db isInMemory env d number verbosity keepdb).1 =
        [Event.fsCopy (getStrD d "NAME")
           (getStrD (get_test_db_clone_settings isInMemory d number) "NAME")]) := by
  refine ⟨?_, ?_, ?_, ?_⟩
  · intro h
    simp [clone_test_db, h]
  · intro h ht hk
    simp [clone_test_db, h, ht, hk]
  · intro h ht hk hr hc
    by_cases hv : 1 ≤ verbosity <;>
      simp [clone_test_db, cloneCopyStep, fsEvents, h, ht, hk, hr, hc, hv,
        List.filter]
  · intro h ht hc
    simp [clone_test_db, cloneCopyStep, fsEvents, h, ht, hc, List.filter]

/-- C2 witness: concrete runs through each branch. -/
theorem clone_test_db_frame_witness :
    (clone_test_db (fun n => n == ":memory:") ⟨true, true, true⟩
      [("NAME", PyVal.vstr ":memory:")] 1 1 false).1 = [] ∧
    (clone_test_db (fun _ => false) ⟨true, true, true⟩
      [("NAME", PyVal.vstr "t.db")] 1 1 true).1 = [] ∧
    fsEvents (clone_test_db (fun _ => false) ⟨true, true, true⟩
      [("NAME", PyVal.vstr "t.db")] 1 1 false).1 =
      [Event.fsRemove (getStrD (get_test_db_clone_settings (fun _ => false)
          [("NAME", PyVal.vstr "t.db")] 1) "NAME"),
       Event.fsCopy "t.db" (getStrD (get_test_db_clone_settings (fun _ => false)
          [("NAME", PyVal.vstr "t.db")] 1) "NAME")] ∧
    fsEvents (clone_test_db (fun _ => false) ⟨false, true, true⟩
      [("NAME", PyVal.vstr "t.db")] 1 1 false).1 =
      [Event.fsCopy "t.db" (getStrD (get_test_db_clone_settings (fun _ => false)
          [("NAME", PyVal.vstr "t.db")] 1) "NAME")] := by
  refine ⟨?_, ?_, ?_, ?_⟩
  · exact (clone_test_db_frame (fun n => n == ":memory:") ⟨true, true, true⟩
      [("NAME", PyVal.vstr ":memory:")] 1 1 false).1 (by decide)
  · exact (clone_test_db_frame (fun _ => false) ⟨true, true, true⟩
      [("NAME", PyVal.vstr "t.db")] 1 1 true).2.1 rfl rfl rfl
  · exact (clone_test_db_frame (fun _ => false) ⟨true, true, true⟩
      [("NAME", PyVal.vstr "t.db")] 1 1 false).2.2.1 rfl rfl rfl rfl rfl
  · exact (clone_test_db_frame (fun _ => false) ⟨false, true, true⟩
      [("NAME", PyVal.vstr "t.db")] 1 1 false).2.2.2 rfl rfl rfl

/-- C4: every deletion or copy error ends the run with exit status 2
right after the message written to standard error, refusing the prompt
ends it with exit status 1 right after the cancellation message, and
nothing further happens in either case. -/
theorem creation_error_handling (cenv : CreateEnv) (env : CloneEnv)
    (isInMemory : String → Bool) (d d' : SettingsDict) (aliasName : String)
    (verbosity number : Nat) (autoclobber keepdb : Bool) :
    (get_test_db_name d ≠ ":memory:" → cenv.fileExists = true →
      (autoclobber = true ∨ cenv.userInput = "yes") → cenv.removeOk = false →
      (create_test_db cenv d aliasName verbosity autoclobber).2
          = Except.error 2 ∧
      (create_test_db cenv d aliasName verbosity autoclobber).1.getLast?
          = some (Event.stderr "Got an error deleting the old test database")) ∧
    (get_test_db_name d ≠ ":memory:" → cenv.fileExists = true →
      autoclobber = false → cenv.userInput ≠ "yes" →
      (create_test_db cenv d aliasName verbosity autoclobber).2
          = Except.error 1 ∧
      (create_test_db cenv d aliasName verbosity autoclobber).1.getLast?
          = some (Event.stdout "Tests cancelled.")) ∧
    (isInMemory (getStrD d' "NAME") = false → env.targetExists = true →
      keepdb = false → env.removeOk = false →
      (clone_test_db isInMemory env d' number verbosity keepdb).2
          = Outcome.exited 2 ∧
      (clone_test_db isInMemory env d' number verbosity keepdb).1.getLast?
          = some (Event.stderr "Got an error deleting the old test database")) ∧
    (isInMemory (getStrD d' "NAME") = false → env.copyOk = false →
      (env.targetExists = false ∨ (keepdb = false ∧ env.removeOk = true)) →
      (clone_test_db isInMemory env d' number verbosity keepdb).2
          = Outcome.exited 2 ∧
      (clone_test_db isInMemory env d' number verbosity keepdb).1.getLast?
          = some (Event.stderr "Got an error cloning the test database")) := by
  refine ⟨?_, ?_, ?_, ?_⟩
  · intro hm hf ha hr
    have ha' : autoclobber || cenv.userInput == "yes" := by
      rcases ha with ha | ha <;> simp [ha]
    by_cases hv : 1 ≤ verbosity <;>
      simp [create_test_db, hm, hf, ha', hr, hv]
  · intro hm hf ha hi
    have ha' : (autoclobber || cenv.userInput == "yes") = false := by
      simp [ha, hi]
    by_cases hv : 1 ≤ verbosity <;>
      simp [create_test_db, hm, hf, ha', hv]
  · intro h ht hk hr
    by_cases hv : 1 ≤ verbosity <;>
      simp [clone_test_db, h, ht, hk, hr, hv]
  · intro h hc hcase
    rcases hcase with ht | ⟨hk, hr⟩
    · simp [clone_test_db, cloneCopyStep, h, ht, hc]
    · by_cases ht : env.targetExists <;>
        by_cases hv : 1 ≤ verbosity <;>
        simp [clone_test_db, cloneCopyStep, h, ht, hk, hr, hc, hv]

/-- C4 witness: one concrete run through each error branch. -/
theorem creation_error_handling_witness :
    (create_test_db ⟨true, "no", false⟩ [("TEST_NAME", PyVal.vstr "t.db")]
        "default" 1 true).2 = Except.error 2 ∧
    (create_test_db ⟨true, "no", true⟩ [("TEST_NAME", PyVal.vstr "t.db")]
        "default" 1 false).2 = Except.error 1 ∧
    (clone_test_db (fun _ => false) ⟨true, false, true⟩
        [("NAME", PyVal.vstr "t.db")] 1 1 false).2 = Outcome.exited 2 ∧
    (clone_test_db (fun _ => false) ⟨false, true, false⟩
        [("NAME", PyVal.vstr "t.db")] 1 1 false).2 = Outcome.exited 2 := by
  refine ⟨?_, ?_, ?_, ?_⟩
  · exact ((creation_error_handling ⟨true, "no", false⟩ ⟨true, true, true⟩
      (fun _ => false) [("TEST_NAME", PyVal.vstr "t.db")] [] "default" 1 1
      true false).1 (by decide) rfl (Or.inl rfl) rfl).1
  · exact ((creation_error_handling ⟨true, "no", true⟩ ⟨true, true, true⟩
      (fun _ => false) [("TEST_NAME", PyVal.vstr "t.db")] [] "default" 1 1
      false false).2.1 (by decide) rfl rfl (by decide)).1
  · exact ((creation_error_handling ⟨true, "no", true⟩ ⟨true, false, true⟩
      (fun _ => false) [] [("NAME", PyVal.vstr "t.db")] "default" 1 1
      false false).2.2.1 rfl rfl rfl rfl).1
  · exact ((creation_error_handling ⟨true, "no", true⟩ ⟨false, true, false⟩
      (fun _ => false) [] [("NAME", PyVal.vstr "t.db")] "default" 1 1
      false false).2.2.2 rfl rfl (Or.inl rfl)).1

/-- The Django settings object, restricted to the attributes runtests.py
reads or writes; ROOT_URLCONF may be absent (read with getattr and a
default). -/
structure Settings where
  INSTALLED_APPS : List String
  ROOT_URLCONF : Option String
  TEMPLATE_DIRS : List String
  LANGUAGE_CODE : String
  STATIC_URL : String
  STATIC_ROOT : String
  SITE_ID : Nat
deriving DecidableEq, Repr

/-- runtests.py lines 85-92: the six prior settings values recorded by
setup; an absent ROOT_URLCONF is recorded as the empty string. -/
structure SavedState where
  INSTALLED_APPS : List String
  ROOT_URLCONF : String
  TEMPLATE_DIRS : List String
  LANGUAGE_CODE : String
  STATIC_URL : String
  STATIC_ROOT : String
deriving DecidableEq, Repr

/-- runtests.py lines 42-58. -/
def ALWAYS_INSTALLED_APPS : List String :=
  [ "django.contrib.contenttypes",
    "django.contrib.auth",
    "django.contrib.sites",
    "django.contrib.flatpages",
    "django.contrib.redirects",
    "django.contrib.sessions",
    "django.contrib.messages",
    "django.contrib.comments",
    "django.contrib.admin",
    "django.contrib.admindocs",
    "django.contrib.staticfiles",
    "django.contrib.humanize" ]

/-- runtests.py lines 141-165: append each loaded test module label to
INSTALLED_APPS unless already present. -/
def appendApps (apps : List String) (labels : List String) : List String :=
  labels.foldl (fun acc l => if l ∈ acc then acc else acc ++ [l]) apps

/-- Ambient data of a setup run: the temporary directory, the runtests
directory, and the module labels whose apps load successfully, in
iteration order; all come from the filesystem at runtime. -/
structure SetupEnv where
  tempDir : String
  runtestsDir : String
  loadedLabels : List String
deriving DecidableEq, Repr

/-- runtests.py lines 83-167, setup: record the six prior settings
values, then redirect them and grow INSTALLED_APPS from the loaded test
apps. -/
def setup (env : SetupEnv) (s : Settings) : SavedState × Settings :=
  let state : SavedState :=
    { INSTALLED_APPS := s.INSTALLED_APPS
      ROOT_URLCONF := s.ROOT_URLCONF.getD ""
      TEMPLATE_DIRS := s.TEMPLATE_DIRS
      LANGUAGE_CODE := s.LANGUAGE_CODE
      STATIC_URL := s.STATIC_URL
      STATIC_ROOT := s.STATIC_ROOT }
  (state,
    { INSTALLED_APPS := appendApps ALWAYS_INSTALLED_APPS env.loadedLabels
      ROOT_URLCONF := some "urls"
      TEMPLATE_DIRS := [env.runtestsDir ++ "/templates"]
      LANGUAGE_CODE := "en"
      STATIC_URL := "/static/"
      STATIC_ROOT := env.tempDir ++ "/static"
      SITE_ID := 1 })

/-- runtests.py lines 170-179, teardown: set every recorded key back on
the settings object. -/
def teardown (state : SavedState) (cur : Settings) : Settings :=
  { cur with
    INSTALLED_APPS := state.INSTALLED_APPS
    ROOT_URLCONF := some state.ROOT_URLCONF
    TEMPLATE_DIRS := state.TEMPLATE_DIRS
    LANGUAGE_CODE := state.LANGUAGE_CODE
    STATIC_URL := state.STATIC_URL
    STATIC_ROOT := state.STATIC_ROOT }

/-- C3: setup records the six prior settings values before overwriting
them, and teardown on the recorded state restores each of the six to its
recorded prior value, whatever the settings look like in between. -/
theorem setup_teardown_roundtrip (env : SetupEnv) (s cur : Settings) :
    ((setup env s).1.INSTALLED_APPS = s.INSTALLED_APPS ∧
     (setup env s).1.ROOT_URLCONF = s.ROOT_URLCONF.getD "" ∧
     (setup env s).1.TEMPLATE_DIRS = s.TEMPLATE_DIRS ∧
     (setup env s).1.LANGUAGE_CODE = s.LANGUAGE_CODE ∧
     (setup env s).1.STATIC_URL = s.STATIC_URL ∧
     (setup env s).1.STATIC_ROOT = s.STATIC_ROOT) ∧
    ((setup env s).2.INSTALLED_APPS
        = appendApps ALWAYS_INSTALLED_APPS env.loadedLabels ∧
     (setup env s).2.ROOT_URLCONF = some "urls" ∧
     (setup env s).2.LANGUAGE_CODE = "en" ∧
     (setup env s).2.STATIC_URL = "/static/") ∧
    ((teardown (setup env s).1 cur).INSTALLED_APPS = s.INSTALLED_APPS ∧
     (teardown (setup env s).1 cur).ROOT_URLCONF
        = some (s.ROOT_URLCONF.getD "") ∧
     (teardown (setup env s).1 cur).TEMPLATE_DIRS = s.TEMPLATE_DIRS ∧
     (teardown (setup env s).1 cur).LANGUAGE_CODE = s.LANGUAGE_CODE ∧
     (teardown (setup env s).1 cur).STATIC_URL = s.STATIC_URL ∧
     (teardown (setup env s).1 cur).STATIC_ROOT = s.STATIC_ROOT) :=
  ⟨⟨rfl, rfl, rfl, rfl, rfl, rfl⟩, ⟨rfl, rfl, rfl, rfl⟩,
   rfl, rfl, rfl, rfl, rfl, rfl⟩

/-- runtests.py lines 284-288: drop the constant pair member and the
special-combination test from the labels; Python list.remove takes the
first occurrence and the ValueError of a missing label is passed over. -/
def pairedPrep (paired_test : String) (labels : List String) : List String :=
  (labels.erase paired_test).erase "model_inheritance_same_model_name"

/-- runtests.py lines 299-307: scan the labels in order, one subprocess
call per label pairing it with the constant test, stopping at the first
failing pair.  Subprocess results come from the oracle; each invocation
is recorded as the pair of labels appended to the fixed arguments. -/
def pairedLoop (fails : String → Bool) (paired_test : String) :
    List String → List (List String) × Option String
  | [] => ([], none)
  | l :: rest =>
    if fails l then ([[l, paired_test]], some l)
    else
      let r := pairedLoop fails paired_test rest
      ([l, paired_test] :: r.1, r.2)

/-- runtests.py lines 275-308, paired_tests: preparation then the scan;
the second component is the problem label printed, none when the scan
reports that no problem pair was found. -/
def paired_tests (fails : String → Bool) (paired_test : String)
    (labels : List String) : List (List String) × Option String :=
  pairedLoop fails paired_test (pairedPrep paired_test labels)

theorem pairedLoop_spec (fails : String → Bool) (pt : String)
    (L : List String) :
    (L.find? fails = none →
      pairedLoop fails pt L = (L.map (fun l => [l, pt]), none)) ∧
    (∀ l₀, L.find? fails = some l₀ →
      pairedLoop fails pt L
        = (((L.takeWhile fun l => !fails l) ++ [l₀]).map (fun l => [l, pt]),
           some l₀)) := by
  induction L with
  | nil =>
    constructor
    · intro _
      rfl
    · intro l₀ h
      simp at h
  | cons a rest ih =>
    by_cases ha : fails a
    · constructor
      · intro h
        rw [List.find?_cons_of_pos _ ha] at h
        simp at h
      · intro l₀ h
        rw [List.find?_cons_of_pos _ ha] at h
        obtain rfl : a = l₀ := by simpa using h
        simp [pairedLoop, ha, List.takeWhile_cons]
    · constructor
      · intro h
        rw [List.find?_cons_of_neg _ ha] at h
        simp [pairedLoop, ha, ih.1 h, List.takeWhile_cons]
      · intro l₀ h
        rw [List.find?_cons_of_neg _ ha] at h
        simp [pairedLoop, ha, ih.2 l₀ h, List.takeWhile_cons]

/-- C5: paired_tests, after dropping the paired test and the
special-combination test, runs exactly one subprocess per remaining
label in list order, each pairing the label with the constant test;
it stops at the first failing pair and reports that label, and reports
no problem pair when every pair passes. -/
theorem paired_tests_scan (fails : String → Bool) (pt : String)
    (labels : List String) :
    ((pairedPrep pt labels).find? fails = none →
      (paired_tests fails pt labels).1
          = (pairedPrep pt labels).map (fun l => [l, pt]) ∧
      (paired_tests fails pt labels).2 = none) ∧
    (∀ l₀, (pairedPrep pt labels).find? fails = some l₀ →
      (paired_tests fails pt labels).1
          = (((pairedPrep pt labels).takeWhile fun l => !fails l)
              ++ [l₀]).map (fun l => [l, pt]) ∧
      (paired_tests fails pt labels).2 = some l₀) := by
  have h := pairedLoop_spec fails pt (pairedPrep pt labels)
  constructor
  · intro hn
    rw [paired_tests, h.1 hn]
    exact ⟨rfl, rfl⟩
  · intro l₀ hs
    rw [paired_tests, h.2 l₀ hs]
    exact ⟨rfl, rfl⟩

/-- C5 witness: a concrete scan that stops at the failing label. -/
theorem paired_tests_scan_witness :
    (paired_tests (fun l => l == "bad") "x" ["a", "x", "bad", "c"]).1
        = [["a", "x"], ["bad", "x"]] ∧
    (paired_tests (fun l => l == "bad") "x" ["a", "x", "bad", "c"]).2
        = some "bad" := by
  have h := (paired_tests_scan (fun l => l == "bad") "x"
    ["a", "x", "bad", "c"]).2 "bad" (by decide)
  exact ⟨by rw [h.1]; decide, h.2⟩

/-- runtests.py line 244: the first half up to the midpoint (Python 2
floor division of the length), with the bisection label appended. -/
def halfA (bl : String) (labels : List String) : List String :=
  labels.take (labels.length / 2) ++ [bl]

/-- runtests.py line 245: the second half from the midpoint on, with the
bisection label appended. -/
def halfB (bl : String) (labels : List String) : List String :=
  labels.drop (labels.length / 2) ++ [bl]

theorem dropLast_append_single (l : List String) (a : String) :
    (l ++ [a]).dropLast = l := by
  simp

theorem halfA_dropLast_length (bl : String) (labels : List String)
    (h : 1 < labels.length) :
    (halfA bl labels).dropLast.length < labels.length := by
  rw [halfA, dropLast_append_single]
  simp only [List.length_take]
  omega

theorem halfB_dropLast_length (bl : String) (labels : List String)
    (h : 1 < labels.length) :
    (halfB bl labels).dropLast.length < labels.length := by
  rw [halfB, dropLast_append_single]
  simp only [List.length_drop]
  omega

/-- runtests.py lines 241-268, the bisection loop: while more than one
label remains, run each half with the bisection label appended, recurse
on the half that alone reports failures with the appended label dropped,
and break when both or neither half fails.  Subprocess failure counts
come from the oracle.  Returns the label lists passed to the subprocess,
the final label list, and whether the loop broke out early. -/
def bisectLoop (fails : List String → Bool) (bl : String)
    (labels : List String) : List (List String) × List String × Bool :=
  if h : 1 < labels.length then
    if fails (halfA bl labels) = true ∧ fails (halfB bl labels) = false then
      let r := bisectLoop fails bl (halfA bl labels).dropLast
      (halfA bl labels :: halfB bl labels :: r.1, r.2)
    else if fails (halfB bl labels) = true ∧ fails (halfA bl labels) = false then
      let r := bisectLoop fails bl (halfB bl labels).dropLast
      (halfA bl labels :: halfB bl labels :: r.1, r.2)
    else ([halfA bl labels, halfB bl labels], labels, true)
  else ([], labels, false)
termination_by labels.length
decreasing_by
  · exact halfA_dropLast_length bl labels h
  · exact halfB_dropLast_length bl labels h

/-- runtests.py lines 217-230: remove the bisection label and the
special-combination test before bisecting (first occurrence each, the
ValueError of a missing label passed over). -/
def bisectPrep (bisection_label : String) (labels : List String) :
    List String :=
  (labels.erase bisection_label).erase "model_inheritance_same_model_name"

theorem bisectLoop_no_break_result (fails : List String → Bool) (bl : String) :
    ∀ n (labels : List String), labels.length ≤ n →
      (bisectLoop fails bl labels).2.2 = false →
      (bisectLoop fails bl labels).2.1.length ≤ 1 := by
  intro n
  induction n with
  | zero =>
    intro labels hlen _
    have h : ¬ 1 < labels.length := by omega
    rw [bisectLoop, dif_neg h]
    show labels.length ≤ 1
    omega
  | succ n ih =>
    intro labels hlen hb
    by_cases h : 1 < labels.length
    · rw [bisectLoop, dif_pos h] at hb ⊢
      by_cases c1 : fails (halfA bl labels) = true ∧
          fails (halfB bl labels) = false
      · rw [if_pos c1] at hb ⊢
        have hlen' : (halfA bl labels).dropLast.length ≤ n := by
          have := halfA_dropLast_length bl labels h
          omega
        exact ih (halfA bl labels).dropLast hlen' hb
      · rw [if_neg c1] at hb ⊢
        by_cases c2 : fails (halfB bl labels) = true ∧
            fails (halfA bl labels) = false
        · rw [if_pos c2] at hb ⊢
          have hlen' : (halfB bl labels).dropLast.length ≤ n := by
            have := halfB_dropLast_length bl labels h
            omega
          exact ih (halfB bl labels).dropLast hlen' hb
        · rw [if_neg c2] at hb
          exact absurd hb (by simp)
    · rw [bisectLoop, dif_neg h]
      show labels.length ≤ 1
      omega

/-- C1: with more than one label, each pass splits the list at the floor
midpoint into halves whose concatenation is the current list, invokes
the subprocess on each half with the bisection label appended, continues
on the half that alone fails with the appended label dropped - a
strictly shorter list - and whenever the loop never breaks out (every
pass had exactly one failing half) it ends with at most one label. -/
theorem bisect_tests_correct (fails : List String → Bool) (bl : String)
    (labels : List String) (h : 1 < labels.length) :
    (labels.take (labels.length / 2) ++ labels.drop (labels.length / 2)
        = labels) ∧
    (∃ rest, (bisectLoop fails bl labels).1
        = halfA bl labels :: halfB bl labels :: rest) ∧
    (fails (halfA bl labels) = true → fails (halfB bl labels) = false →
      (halfA bl labels).dropLast = labels.take (labels.length / 2) ∧
      (halfA bl labels).dropLast.length < labels.length ∧
      (bisectLoop fails bl labels).2
        = (bisectLoop fails bl (halfA bl labels).dropLast).2) ∧
    (fails (halfB bl labels) = true → fails (halfA bl labels) = false →
      (halfB bl labels).dropLast = labels.drop (labels.length / 2) ∧
      (halfB bl labels).dropLast.length < labels.length ∧
      (bisectLoop fails bl labels).2
        = (bisectLoop fails bl (halfB bl labels).dropLast).2) ∧
    ((bisectLoop fails bl labels).2.2 = false →
      (bisectLoop fails bl labels).2.1.length ≤ 1) := by
  refine ⟨List.take_append_drop _ _, ?_, ?_, ?_,
    bisectLoop_no_break_result fails bl labels.length labels le_rfl⟩
  · rw [bisectLoop, dif_pos h]
    by_cases c1 : fails (halfA bl labels) = true ∧
        fails (halfB bl labels) = false
    · rw [if_pos c1]
      exact ⟨_, rfl⟩
    · rw [if_neg c1]
      by_cases c2 : fails (halfB bl labels) = true ∧
          fails (halfA bl labels) = false
      · rw [if_pos c2]
        exact ⟨_, rfl⟩
      · rw [if_neg c2]
        exact ⟨[], rfl⟩
  · intro ha hb
    refine ⟨by rw [halfA, dropLast_append_single],
      halfA_dropLast_length bl labels h, ?_⟩
    rw [bisectLoop, dif_pos h, if_pos ⟨ha, hb⟩]
  · intro hb ha
    have c1 : ¬ (fails (halfA bl labels) = true ∧
        fails (halfB bl labels) = false) := by
      intro c
      have hc := c.1
      rw [ha] at hc
      exact absurd hc (by decide)
    refine ⟨by rw [halfB, dropLast_append_single],
      halfB_dropLast_length bl labels h, ?_⟩
    rw [bisectLoop, dif_pos h, if_neg c1, if_pos ⟨hb, ha⟩]

/-- C1 witness: a concrete bisection over three labels with the failure
in the second half. -/
theorem bisect_tests_correct_witness :
    ((["u", "v", "w"] : List String).take 1 ++ ["u", "v", "w"].drop 1
        = ["u", "v", "w"]) ∧
    ((bisectLoop (fun l => l.contains "w") "b" ["u", "v", "w"]).2.1.length
        ≤ 1) := by
  have h := bisect_tests_correct (fun l => l.contains "w") "b"
    ["u", "v", "w"] (by decide)
  exact ⟨h.1, h.2.2.2.2 (by simp [bisectLoop, halfA, halfB])⟩

end DjangoImt
